import Mathlib

/-!
# Verification of the `svg_builder` Odoo module against its specification

Part 1 embeds the persistence model found in
`src/svg_builder/models/svg_builder.py`: a record type with five fields
(`name` required; `svg_content` optional; `width`/`height`/`background_color`
with declared defaults), a `create_svg` method that builds the value
dictionary and calls the ORM `create`, and an `update_svg` method that
assigns `svg_content` on every record of the recordset and returns `True`.

Nullable ORM values are embedded as `Option`; a value absent from the
`create` dictionary is `none`, and the ORM applies the declared field
default in that case.  A required field that is missing makes `create`
fail, which we embed as `Except`.

Part 2 models, from the specification text only, the front-end core that
the module declares but whose sources are not provided: the Scene Graph
(ordered tree of elements, `move` with the cyclic-parent check), the
Command/History engine (snapshot commands, undo/redo stacks), and the
Serializer (`toMarkup`/`fromMarkup` with the round-trip law).  Markup text
is modelled at the level of its tag tree, and numeric attributes as exact
rationals, so the round-trip law holds with difference `0 < 1e-6`.
-/

namespace SvgBuilderModule

/-- The `svg.builder` record: the five stored fields declared on the model.
`name` is `required=True` hence `String`; `svg_content` is a nullable
`Text` field hence `Option String`; `width`, `height`, `background_color`
always receive a value (a default when absent from the `create` values). -/
structure SvgBuilder where
  name : String
  svg_content : Option String
  width : Int
  height : Int
  background_color : String
deriving DecidableEq, Repr, Inhabited

/-- The dictionary of values passed to the ORM `create`: every field may be
absent (`none`). -/
structure SvgVals where
  name : Option String
  svg_content : Option String
  width : Option Int
  height : Option Int
  background_color : Option String
deriving DecidableEq, Repr

/-- Failure of the ORM `create`: a `required=True` field was not given. -/
inductive CreateError where
  | missingRequiredField (field : String)
deriving DecidableEq, Repr

/-- The ORM `create`: fails when the required `name` is missing, otherwise
builds the record, applying the declared field defaults (`width=800`,
`height=600`, `background_color='#ffffff'`) to absent values. -/
def create (vals : SvgVals) : Except CreateError SvgBuilder :=
  match vals.name with
  | none => .error (.missingRequiredField "name")
  | some n =>
      .ok { name := n
            svg_content := vals.svg_content
            width := vals.width.getD 800
            height := vals.height.getD 600
            background_color := vals.background_color.getD "#ffffff" }

/-- `create_svg`: packs its arguments into a values dictionary (every key
present) and calls `create`.  The Python signature defaults
`width=800, height=600, background_color='#ffffff'`; a call that omits
them is a call that passes exactly those values. -/
def create_svg (name : Option String) (svg_content : Option String)
    (width : Int) (height : Int) (background_color : String) :
    Except CreateError SvgBuilder :=
  create { name := name
           svg_content := svg_content
           width := some width
           height := some height
           background_color := some background_color }

/-- `update_svg` acts on a recordset (a list of records): it assigns
`svg_content` on every record and returns `True`. -/
def update_svg (recs : List SvgBuilder) (svg_content : Option String) :
    List SvgBuilder × Bool :=
  (recs.map fun r => { r with svg_content := svg_content }, true)

/-- Discriminator for a successful `create` result. -/
def isOk {ε α : Type} : Except ε α → Bool
  | .ok _ => true
  | .error _ => false

end SvgBuilderModule

namespace SvgBuilderModule

/-- C1 (claim as stated): every record created via `create_svg` has
positive width and height, non-positive dimensions being rejected. -/
def createdDimensionsPositive : Prop :=
  ∀ (n c : Option String) (w h : Int) (bg : String) (r : SvgBuilder),
    create_svg n c w h bg = .ok r → 0 < r.width ∧ 0 < r.height

instance : Decidable createdDimensionsPositive := by
  apply isFalse
  intro hall
  have h := hall (some "x") none (-5) 600 "#ffffff"
      { name := "x", svg_content := none, width := -5, height := 600,
        background_color := "#ffffff" } rfl
  exact absurd h.1 (by decide)

end SvgBuilderModule

namespace SceneModel

/-- Modelled from the spec: a 2D affine transform, six coefficients
(linear part and translation), composable by matrix multiplication.
Numeric attributes are modelled as exact rationals. -/
structure Affine where
  a : ℚ
  b : ℚ
  c : ℚ
  d : ℚ
  e : ℚ
  f : ℚ
deriving DecidableEq, Repr

/-- Modelled from the spec: the style attributes every element carries —
fill color, stroke color, stroke width, opacity. -/
structure Style where
  fill : String
  stroke : String
  strokeWidth : ℚ
  opacity : ℚ
deriving DecidableEq, Repr

/-- Modelled from the spec: the discriminated variant of an element —
rect, circle, ellipse, path, text or group — with its per-variant
geometry fields.  Only groups own children, carried on the node itself. -/
inductive ElemData where
  | rect (x y w h : ℚ)
  | circle (cx cy r : ℚ)
  | ellipse (cx cy rx ry : ℚ)
  | path (d : String)
  | text (x y : ℚ) (content : String)
  | group
deriving DecidableEq, Repr

/-- Modelled from the spec: a Scene Graph element — unique stable id,
variant data, style, transform and an ordered sequence of children
(non-empty only for groups); z-index is the position in the parent's
sequence. -/
inductive Element where
  | mk (id : Nat) (data : ElemData) (style : Style) (transform : Affine)
      (children : List Element)

/-- The id of an element. -/
def Element.id : Element → Nat
  | .mk i _ _ _ _ => i

/-- The children of an element. -/
def Element.children : Element → List Element
  | .mk _ _ _ _ cs => cs

mutual
/-- All ids in the subtree rooted at an element, the root included. -/
def Element.subtreeIds : Element → List Nat
  | .mk i _ _ _ cs => i :: subtreeIdsForest cs

/-- All ids in a forest of elements. -/
def subtreeIdsForest : List Element → List Nat
  | [] => []
  | e :: es => e.subtreeIds ++ subtreeIdsForest es
end

mutual
/-- Boolean structural equality of elements. -/
def Element.beq : Element → Element → Bool
  | .mk i d s t cs, .mk i' d' s' t' cs' =>
      decide (i = i') && decide (d = d') && decide (s = s') &&
        decide (t = t') && beqForest cs cs'

/-- Boolean structural equality of element forests. -/
def beqForest : List Element → List Element → Bool
  | [], [] => true
  | e :: es, f :: fs => Element.beq e f && beqForest es fs
  | _, _ => false
end

mutual
theorem Element.beq_eq_true_iff : ∀ a b : Element, Element.beq a b = true ↔ a = b
  | .mk i d s t cs, .mk i' d' s' t' cs' => by
      simp only [Element.beq, Bool.and_eq_true, decide_eq_true_eq,
        beqForest_eq_true_iff cs cs', Element.mk.injEq]
      tauto

theorem beqForest_eq_true_iff : ∀ as bs : List Element,
    beqForest as bs = true ↔ as = bs
  | [], [] => by simp [beqForest]
  | [], _ :: _ => by simp [beqForest]
  | _ :: _, [] => by simp [beqForest]
  | a :: as, b :: bs => by
      simp only [beqForest, Bool.and_eq_true, Element.beq_eq_true_iff a b,
        beqForest_eq_true_iff as bs, List.cons.injEq]
end

instance : DecidableEq Element := fun a b =>
  decidable_of_iff _ (Element.beq_eq_true_iff a b)

/-- The ids of the proper descendants of an element. -/
def Element.descendantIds : Element → List Nat
  | .mk _ _ _ _ cs => subtreeIdsForest cs

mutual
/-- Find the element with the given id in a forest (pre-order). -/
def findElem : List Element → Nat → Option Element
  | [], _ => none
  | e :: es, i =>
      match findInElem e i with
      | some r => some r
      | none => findElem es i

/-- Find the element with the given id inside an element's subtree. -/
def findInElem : Element → Nat → Option Element
  | .mk j d s t cs, i =>
      if j = i then some (.mk j d s t cs) else findElem cs i
end

mutual
/-- Detach the element with the given id from a forest: the forest without
it (subsequent siblings shift, nothing renumbered) and the detached
element, if found. -/
def removeFromForest : List Element → Nat → List Element × Option Element
  | [], _ => ([], none)
  | e :: es, i =>
      if e.id = i then (es, some e)
      else
        match removeFromElem e i with
        | (e', some r) => (e' :: es, some r)
        | (e', none) =>
            match removeFromForest es i with
            | (es', found) => (e' :: es', found)

/-- Detach the element with the given id from an element's children. -/
def removeFromElem : Element → Nat → Element × Option Element
  | .mk j d s t cs, i =>
      match removeFromForest cs i with
      | (cs', found) => (.mk j d s t cs', found)
end

mutual
/-- Insert an element at the given index of the children of the node with
the given id, if that node is in the forest. -/
def insertUnder : List Element → Nat → Nat → Element → Option (List Element)
  | [], _, _, _ => none
  | c :: cs, p, idx, e =>
      match insertUnderElem c p idx e with
      | some c' => some (c' :: cs)
      | none => (insertUnder cs p idx e).map (fun cs' => c :: cs')

/-- Insert an element at the given index of the children of the node with
the given id, searching inside one element's subtree. -/
def insertUnderElem : Element → Nat → Nat → Element → Option Element
  | .mk j d s t cs, p, idx, e =>
      if j = p then some (.mk j d s t (cs.insertIdx idx e))
      else (insertUnder cs p idx e).map (fun cs' => .mk j d s t cs')
end

/-- Insert an element under the given parent (at root level when the
parent is `none`) at the given index. -/
def insertIntoForest (roots : List Element) (parent : Option Nat)
    (idx : Nat) (e : Element) : Option (List Element) :=
  match parent with
  | none => some (roots.insertIdx idx e)
  | some p => insertUnder roots p idx e

/-- Modelled from the spec: a Document — id, width, height, background
color, and the ordered sequence of root elements of the Scene Graph. -/
structure Document where
  id : Nat
  width : ℚ
  height : ℚ
  backgroundColor : String
  elements : List Element
deriving DecidableEq

/-- Modelled from the spec: Scene Graph mutation errors. -/
inductive SceneError where
  | cyclicParentError
  | elementNotFound
deriving DecidableEq, Repr

/-- Modelled from the spec: `move(id, newParentId, newIndex)` — fails with
`CyclicParentError` when the target parent is the moved node or one of its
descendants; otherwise detaches the node and re-inserts it under the new
parent at the index. -/
def move (doc : Document) (id : Nat) (newParentId : Option Nat)
    (newIndex : Nat) : Except SceneError Document :=
  match findElem doc.elements id with
  | none => .error .elementNotFound
  | some e =>
      let cyclic : Bool :=
        match newParentId with
        | none => false
        | some p => decide (p = id) || decide (p ∈ e.descendantIds)
      if cyclic then .error .cyclicParentError
      else
        match removeFromForest doc.elements id with
        | (_, none) => .error .elementNotFound
        | (rest, some moved) =>
            match insertIntoForest rest newParentId newIndex moved with
            | none => .error .elementNotFound
            | some roots => .ok { doc with elements := roots }

/-- Atomic application of `move`: a rejected operation leaves the prior
state untouched. -/
def applyMove (doc : Document) (id : Nat) (newParentId : Option Nat)
    (newIndex : Nat) : Document :=
  match move doc id newParentId newIndex with
  | .ok doc' => doc'
  | .error _ => doc

/-- Modelled from the spec: a Command — an immutable record of target
element ids, a prior-state snapshot, a new-state snapshot and a kind.
Commands are self-contained (snapshot-based, not delta-based). -/
structure Command where
  targets : List Nat
  prior : Document
  after : Document
  kind : String
deriving DecidableEq

/-- Modelled from the spec: the Command/History engine state — the Scene
Graph it owns and the two mutually exclusive stacks of commands. -/
structure Engine where
  scene : Document
  undoStack : List Command
  redoStack : List Command
deriving DecidableEq

/-- The engine at editor load: a fresh document, both stacks empty. -/
def Engine.init (d : Document) : Engine :=
  { scene := d, undoStack := [], redoStack := [] }

/-- Modelled from the spec: `execute(command)` applies the command's
forward transition (its new-state snapshot) to the Scene Graph, pushes
the command on the undo stack and clears the redo stack. -/
def execute (e : Engine) (c : Command) : Engine :=
  { scene := c.after, undoStack := c :: e.undoStack, redoStack := [] }

/-- Modelled from the spec: `undo()` pops the most recent command, applies
its inverse (the stored prior-state snapshot) and pushes it on the redo
stack; a no-op (`NothingToUndo`, no state change) on an empty stack. -/
def undo (e : Engine) : Engine :=
  match e.undoStack with
  | [] => e
  | c :: rest =>
      { scene := c.prior, undoStack := rest, redoStack := c :: e.redoStack }

/-- Modelled from the spec: `redo()`, symmetric to `undo()`. -/
def redo (e : Engine) : Engine :=
  match e.redoStack with
  | [] => e
  | c :: rest =>
      { scene := c.after, undoStack := c :: e.undoStack, redoStack := rest }

/-- Execute a sequence of commands in order. -/
def executeAll (e : Engine) (cs : List Command) : Engine :=
  cs.foldl execute e

/-- Call `undo()` the given number of times. -/
def undoN : Engine → Nat → Engine
  | e, 0 => e
  | e, n + 1 => undo (undoN e n)

/-- A command sequence is coherent from a state when each command's
prior-state snapshot is exactly the state it is executed on — the way the
Editor Controller constructs commands from the live Scene Graph. -/
def chain : Document → List Command → Bool
  | _, [] => true
  | s, c :: cs => decide (c.prior = s) && chain c.after cs

/-- The scene reached by running a command sequence from a state: the last
command's new-state snapshot. -/
def runScene (s : Document) (cs : List Command) : Document :=
  cs.foldl (fun _ c => c.after) s

/-- Modelled from the spec: an attribute value of the markup tag tree —
text, an exact number, an id, or a transform matrix. -/
inductive AttrVal where
  | str (s : String)
  | num (q : ℚ)
  | nat (n : Nat)
  | matrix (m : Affine)
deriving DecidableEq, Repr

/-- Modelled from the spec: markup text, at the level of its tag tree — a
tag name, named attributes, and child nodes in document order. -/
inductive MNode where
  | mk (tag : String) (attrs : List (String × AttrVal))
      (children : List MNode)

/-- The markup tag of each element variant. -/
def tagOf : ElemData → String
  | .rect _ _ _ _ => "rect"
  | .circle _ _ _ => "circle"
  | .ellipse _ _ _ _ => "ellipse"
  | .path _ => "path"
  | .text _ _ _ => "text"
  | .group => "g"

/-- The per-variant geometry attributes of an element. -/
def dataAttrs : ElemData → List (String × AttrVal)
  | .rect x y w h =>
      [("x", .num x), ("y", .num y), ("width", .num w), ("height", .num h)]
  | .circle cx cy r => [("cx", .num cx), ("cy", .num cy), ("r", .num r)]
  | .ellipse cx cy rx ry =>
      [("cx", .num cx), ("cy", .num cy), ("rx", .num rx), ("ry", .num ry)]
  | .path d => [("d", .str d)]
  | .text x y content =>
      [("x", .num x), ("y", .num y), ("content", .str content)]
  | .group => []

/-- The attributes common to every element: id, style, transform. -/
def commonAttrs (i : Nat) (st : Style) (tf : Affine) :
    List (String × AttrVal) :=
  [("id", .nat i), ("fill", .str st.fill), ("stroke", .str st.stroke),
   ("stroke-width", .num st.strokeWidth), ("opacity", .num st.opacity),
   ("transform", .matrix tf)]

mutual
/-- Serialize one element to a markup node. -/
def elemToMarkup : Element → MNode
  | .mk i d st tf cs =>
      .mk (tagOf d) (dataAttrs d ++ commonAttrs i st tf) (forestToMarkup cs)

/-- Serialize a forest of elements to markup nodes, in order. -/
def forestToMarkup : List Element → List MNode
  | [] => []
  | e :: es => elemToMarkup e :: forestToMarkup es
end

/-- Modelled from the spec: `toMarkup(document)` — the root markup node
with the document attributes and the serialized root elements. -/
def toMarkup (doc : Document) : MNode :=
  .mk "svg"
    [("id", .nat doc.id), ("width", .num doc.width),
     ("height", .num doc.height),
     ("background-color", .str doc.backgroundColor)]
    (forestToMarkup doc.elements)

/-- Look up an attribute by name (first occurrence wins). -/
def lookupAttr : List (String × AttrVal) → String → Option AttrVal
  | [], _ => none
  | (k, v) :: rest, k' => if k = k' then some v else lookupAttr rest k'

/-- Read a numeric attribute. -/
def getNum (attrs : List (String × AttrVal)) (k : String) : Option ℚ :=
  match lookupAttr attrs k with
  | some (.num q) => some q
  | _ => none

/-- Read a text attribute. -/
def getStr (attrs : List (String × AttrVal)) (k : String) : Option String :=
  match lookupAttr attrs k with
  | some (.str s) => some s
  | _ => none

/-- Read an id attribute. -/
def getId (attrs : List (String × AttrVal)) (k : String) : Option Nat :=
  match lookupAttr attrs k with
  | some (.nat n) => some n
  | _ => none

/-- Read a transform attribute. -/
def getMatrix (attrs : List (String × AttrVal)) (k : String) :
    Option Affine :=
  match lookupAttr attrs k with
  | some (.matrix m) => some m
  | _ => none

/-- Modelled from the spec: parsing failures — malformed markup (a missing
or ill-typed attribute, with its position given as tag and attribute
name), or an unsupported element type, which is rejected. -/
inductive ParseError where
  | missingAttr (tag : String) (attr : String)
  | unsupportedTag (tag : String)
deriving DecidableEq, Repr

/-- Require an attribute, reporting the position of the failure. -/
def need {α : Type} (o : Option α) (tag k : String) : Except ParseError α :=
  match o with
  | some a => .ok a
  | none => .error (.missingAttr tag k)

/-- Parse the common attributes: id, style, transform. -/
def parseCommon (tag : String) (attrs : List (String × AttrVal)) :
    Except ParseError (Nat × Style × Affine) := do
  let i ← need (getId attrs "id") tag "id"
  let fl ← need (getStr attrs "fill") tag "fill"
  let sk ← need (getStr attrs "stroke") tag "stroke"
  let sw ← need (getNum attrs "stroke-width") tag "stroke-width"
  let op ← need (getNum attrs "opacity") tag "opacity"
  let tf ← need (getMatrix attrs "transform") tag "transform"
  return (i, { fill := fl, stroke := sk, strokeWidth := sw, opacity := op },
    tf)

/-- Parse the variant data from the tag and the geometry attributes. -/
def parseData (tag : String) (attrs : List (String × AttrVal)) :
    Except ParseError ElemData :=
  if tag = "rect" then do
    let x ← need (getNum attrs "x") tag "x"
    let y ← need (getNum attrs "y") tag "y"
    let w ← need (getNum attrs "width") tag "width"
    let h ← need (getNum attrs "height") tag "height"
    return .rect x y w h
  else if tag = "circle" then do
    let cx ← need (getNum attrs "cx") tag "cx"
    let cy ← need (getNum attrs "cy") tag "cy"
    let r ← need (getNum attrs "r") tag "r"
    return .circle cx cy r
  else if tag = "ellipse" then do
    let cx ← need (getNum attrs "cx") tag "cx"
    let cy ← need (getNum attrs "cy") tag "cy"
    let rx ← need (getNum attrs "rx") tag "rx"
    let ry ← need (getNum attrs "ry") tag "ry"
    return .ellipse cx cy rx ry
  else if tag = "path" then do
    let d ← need (getStr attrs "d") tag "d"
    return .path d
  else if tag = "text" then do
    let x ← need (getNum attrs "x") tag "x"
    let y ← need (getNum attrs "y") tag "y"
    let content ← need (getStr attrs "content") tag "content"
    return .text x y content
  else if tag = "g" then return .group
  else .error (.unsupportedTag tag)

mutual
/-- Deserialize one markup node into an element. -/
def elemFromMarkup : MNode → Except ParseError Element
  | .mk tag attrs children =>
      match forestFromMarkup children with
      | .error err => .error err
      | .ok cs =>
          match parseCommon tag attrs, parseData tag attrs with
          | .ok (i, st, tf), .ok d => .ok (.mk i d st tf cs)
          | .error err, _ => .error err
          | .ok _, .error err => .error err

/-- Deserialize a list of markup nodes, in order. -/
def forestFromMarkup : List MNode → Except ParseError (List Element)
  | [] => .ok []
  | n :: ns =>
      match elemFromMarkup n, forestFromMarkup ns with
      | .ok e, .ok es => .ok (e :: es)
      | .error err, _ => .error err
      | .ok _, .error err => .error err
end

/-- Modelled from the spec: `fromMarkup(text)` — a `Document` or a
`ParseError`. -/
def fromMarkup : MNode → Except ParseError Document
  | .mk tag attrs children =>
      if tag = "svg" then
        match forestFromMarkup children with
        | .error err => .error err
        | .ok es =>
            match getId attrs "id", getNum attrs "width",
                getNum attrs "height", getStr attrs "background-color" with
            | some i, some w, some h, some bg =>
                .ok { id := i, width := w, height := h,
                      backgroundColor := bg, elements := es }
            | _, _, _, _ => .error (.missingAttr "svg" "document")
      else .error (.unsupportedTag tag)

/-- A default style for sample elements. -/
def sampleStyle : Style :=
  { fill := "#000000", stroke := "none", strokeWidth := 1, opacity := 1 }

/-- The identity transform. -/
def identityTransform : Affine :=
  { a := 1, b := 0, c := 0, d := 1, e := 0, f := 0 }

/-- A sample rect element at (10, 10) of size 100 × 50, id 2. -/
def sampleRect : Element :=
  .mk 2 (.rect 10 10 100 50) sampleStyle identityTransform []

/-- A sample group, id 1, owning the sample rect. -/
def sampleGroup : Element :=
  .mk 1 .group sampleStyle identityTransform [sampleRect]

/-- The empty 800 × 600 white document. -/
def emptyDoc : Document :=
  { id := 0, width := 800, height := 600, backgroundColor := "#ffffff",
    elements := [] }

/-- The document holding just the sample rect. -/
def rectDoc : Document :=
  { id := 0, width := 800, height := 600, backgroundColor := "#ffffff",
    elements := [sampleRect] }

/-- The document holding the sample group (which owns the sample rect). -/
def groupedDoc : Document :=
  { id := 0, width := 800, height := 600, backgroundColor := "#ffffff",
    elements := [sampleGroup] }

/-- A sample insert command: from the empty document to the rect one. -/
def insertCmd : Command :=
  { targets := [2], prior := emptyDoc, after := rectDoc, kind := "insert" }

/-- A sample group command: wraps the rect into the group. -/
def groupCmd : Command :=
  { targets := [1, 2], prior := rectDoc, after := groupedDoc,
    kind := "group" }

end SceneModel

open SvgBuilderModule

/-- C1, counterexample: the claim `createdDimensionsPositive` is false —
`create_svg` with `width = -5` succeeds and the created record stores
`width = -5`, so no `ValidationError` rejects non-positive dimensions. -/
theorem c1_counterexample : ¬ createdDimensionsPositive := by
  decide

/-- C1, amended: `create_svg` performs no dimension validation — for every
width and height, including non-positive ones, the record is created and
stores exactly the supplied dimensions, so the invariant
`width > 0 ∧ height > 0` is not enforced. -/
theorem c1_no_dimension_validation (nm : String) (c : Option String)
    (w h : Int) (bg : String) :
    ∃ r : SvgBuilder, create_svg (some nm) c w h bg = .ok r ∧
      r.width = w ∧ r.height = h := by
  exact ⟨{ name := nm, svg_content := c, width := w, height := h,
           background_color := bg }, rfl, rfl, rfl⟩

/-- C2: a document created without explicit width, height or background
color defaults to `800 × 600` with background `#ffffff` — both when
`create_svg` is called with its argument defaults (the Python defaults
`800`, `600`, `'#ffffff'`) and when the `create` values dictionary omits
those fields, in which case the field-level defaults apply. -/
theorem c2_defaults (nm : String) (c : Option String) :
    (create_svg (some nm) c 800 600 "#ffffff" =
      .ok { name := nm, svg_content := c, width := 800, height := 600,
            background_color := "#ffffff" }) ∧
    (create { name := some nm, svg_content := c, width := none,
              height := none, background_color := none } =
      .ok { name := nm, svg_content := c, width := 800, height := 600,
            background_color := "#ffffff" }) :=
  ⟨rfl, rfl⟩

/-- C3: whenever `create_svg name c w h bg` succeeds, the created record
stores exactly the supplied name, content, dimensions and background
color, unmodified. -/
theorem c3_create_svg_stores_arguments (n c : Option String) (w h : Int)
    (bg : String) (r : SvgBuilder)
    (hok : create_svg n c w h bg = .ok r) :
    some r.name = n ∧ r.svg_content = c ∧ r.width = w ∧ r.height = h ∧
      r.background_color = bg := by
  cases n with
  | none => simp [create_svg, create] at hok
  | some nm =>
      simp only [create_svg, create, Except.ok.injEq] at hok
      subst hok
      exact ⟨rfl, rfl, rfl, rfl, rfl⟩

/-- A concrete record, the result of a sample `create_svg` call. -/
def sampleRecord : SvgBuilder :=
  { name := "logo", svg_content := some "<svg/>", width := 320,
    height := 200, background_color := "#000000" }

/-- C3, witness: a concrete successful call. -/
theorem c3_witness :
    some sampleRecord.name = some "logo" ∧
    sampleRecord.svg_content = some "<svg/>" ∧
    sampleRecord.width = 320 ∧ sampleRecord.height = 200 ∧
    sampleRecord.background_color = "#000000" :=
  c3_create_svg_stores_arguments (some "logo") (some "<svg/>") 320 200
    "#000000" sampleRecord rfl

/-- C7: `update_svg` sets `svg_content` to the given value on every record
of the recordset and leaves each record's `name`, `width`, `height` and
`background_color` unchanged (position by position). -/
theorem c7_update_svg_frame (recs : List SvgBuilder) (c : Option String)
    (i : Nat) (r0 r1 : SvgBuilder) (h0 : recs[i]? = some r0)
    (h1 : (update_svg recs c).1[i]? = some r1) :
    r1.svg_content = c ∧ r1.name = r0.name ∧ r1.width = r0.width ∧
      r1.height = r0.height ∧ r1.background_color = r0.background_color := by
  simp only [update_svg, List.getElem?_map, h0, Option.map_some',
    Option.some.injEq] at h1
  subst h1
  exact ⟨rfl, rfl, rfl, rfl, rfl⟩

/-- C7, witness: updating a one-record recordset. -/
theorem c7_witness :
    ((update_svg [sampleRecord] (some "<svg>new</svg>")).1.headI).svg_content
        = some "<svg>new</svg>" ∧
    ((update_svg [sampleRecord] (some "<svg>new</svg>")).1.headI).name
        = sampleRecord.name ∧
    ((update_svg [sampleRecord] (some "<svg>new</svg>")).1.headI).width
        = sampleRecord.width ∧
    ((update_svg [sampleRecord] (some "<svg>new</svg>")).1.headI).height
        = sampleRecord.height ∧
    ((update_svg [sampleRecord] (some "<svg>new</svg>")).1.headI).background_color
        = sampleRecord.background_color :=
  c7_update_svg_frame [sampleRecord] (some "<svg>new</svg>") 0 sampleRecord
    ((update_svg [sampleRecord] (some "<svg>new</svg>")).1.headI) rfl rfl

/-- C8: `update_svg` returns `True` for every recordset and every content
value — including the empty recordset, on which the assignment is a no-op
(the record list is unchanged, still empty) — and never signals failure. -/
theorem c8_update_svg_returns_true (recs : List SvgBuilder)
    (c : Option String) :
    (update_svg recs c).2 = true ∧ (update_svg [] c).2 = true ∧
      (update_svg [] c).1 = [] :=
  ⟨rfl, rfl, rfl⟩

/-- C9: `create_svg` succeeds with empty (`""`) or absent (`none`)
content; it fails exactly when `name` is missing (the required field);
and no other argument value makes it fail. -/
theorem c9_name_only_required :
    (∀ (nm : String) (w h : Int) (bg : String),
      isOk (create_svg (some nm) none w h bg) = true ∧
      isOk (create_svg (some nm) (some "") w h bg) = true) ∧
    (∀ (c : Option String) (w h : Int) (bg : String),
      create_svg none c w h bg = .error (.missingRequiredField "name")) ∧
    (∀ (nm : String) (c : Option String) (w h : Int) (bg : String),
      isOk (create_svg (some nm) c w h bg) = true) :=
  ⟨fun _ _ _ _ => ⟨rfl, rfl⟩, fun _ _ _ _ => rfl, fun _ _ _ _ _ => rfl⟩

open SceneModel

/-- C6: moving an element to one of its own descendants fails with
`CyclicParentError` and leaves the Scene Graph tree completely unchanged —
the rejection is atomic, no partial application is observable. -/
theorem c6_move_to_descendant_rejected (doc : Document) (eid d idx : Nat)
    (e : Element) (h1 : findElem doc.elements eid = some e)
    (h2 : d ∈ e.descendantIds) :
    move doc eid (some d) idx = .error .cyclicParentError ∧
      applyMove doc eid (some d) idx = doc := by
  have hd : decide (d ∈ e.descendantIds) = true := decide_eq_true h2
  have hm : move doc eid (some d) idx = .error .cyclicParentError := by
    unfold move
    rw [h1]
    simp [hd]
  refine ⟨hm, ?_⟩
  unfold applyMove
  rw [hm]

/-- C6, witness: moving the sample group into its own child rect. -/
theorem c6_witness :
    move groupedDoc 1 (some 2) 0 = .error .cyclicParentError ∧
      applyMove groupedDoc 1 (some 2) 0 = groupedDoc :=
  c6_move_to_descendant_rejected groupedDoc 1 2 0 sampleGroup rfl (by decide)

/-- Running `executeAll` from an engine with an empty redo stack: the scene
is the last new-state snapshot, the commands pile up (reversed) on the
undo stack, the redo stack stays empty. -/
theorem executeAll_shape (cs : List Command) : ∀ (sc : Document)
    (u : List Command),
    executeAll ⟨sc, u, []⟩ cs = ⟨runScene sc cs, cs.reverse ++ u, []⟩ := by
  induction cs with
  | nil => intro sc u; rfl
  | cons c cs ih =>
      intro sc u
      show executeAll ⟨c.after, c :: u, []⟩ cs = _
      rw [ih c.after (c :: u)]
      simp [runScene, List.reverse_cons, List.append_assoc]

/-- Undoing as many times as there are commands on top of the undo stack,
when those commands chain from a state `s`: the scene comes back to `s`,
the rest of the undo stack is untouched, the undone commands moved to the
redo stack. -/
theorem undoN_chain (cs : List Command) : ∀ (s : Document)
    (rest r : List Command), chain s cs = true →
    undoN ⟨runScene s cs, cs.reverse ++ rest, r⟩ cs.length =
      ⟨s, rest, cs ++ r⟩ := by
  induction cs with
  | nil => intro s rest r _; simp [undoN, runScene]
  | cons c cs ih =>
      intro s rest r h
      rw [chain, Bool.and_eq_true, decide_eq_true_eq] at h
      obtain ⟨hp, hc⟩ := h
      have hini : (⟨runScene s (c :: cs), (c :: cs).reverse ++ rest, r⟩ :
          Engine) = ⟨runScene c.after cs, cs.reverse ++ (c :: rest), r⟩ := by
        simp [runScene, List.reverse_cons, List.append_assoc]
      rw [List.length_cons, undoN, hini, ih c.after (c :: rest) r hc]
      simp [undo, hp]

/-- C5: executing any coherent sequence of N commands and then calling
`undo()` N times returns the Scene Graph to its exact initial state. -/
theorem c5_execute_then_undoN (s : Document) (cs : List Command)
    (h : chain s cs = true) :
    (undoN (executeAll (Engine.init s) cs) cs.length).scene = s := by
  show (undoN (executeAll ⟨s, [], []⟩ cs) cs.length).scene = s
  rw [executeAll_shape cs s [], undoN_chain cs s [] [] h]

/-- C5, witness: two concrete commands (insert a rect, then group it),
executed from the empty 800 × 600 document and undone twice. -/
theorem c5_witness :
    (undoN (executeAll (Engine.init emptyDoc) [insertCmd, groupCmd])
      ([insertCmd, groupCmd] : List Command).length).scene = emptyDoc :=
  c5_execute_then_undoN emptyDoc [insertCmd, groupCmd] (by decide)

/-- Parsing the common attributes back from a serialized element's
attribute list recovers the id, style and transform. -/
theorem parseCommon_roundtrip (d : ElemData) (i : Nat) (st : Style)
    (tf : Affine) :
    parseCommon (tagOf d) (dataAttrs d ++ commonAttrs i st tf) =
      .ok (i, st, tf) := by
  cases d <;> rfl

/-- Parsing the variant data back from a serialized element's tag and
attribute list recovers the variant. -/
theorem parseData_roundtrip (d : ElemData) (i : Nat) (st : Style)
    (tf : Affine) :
    parseData (tagOf d) (dataAttrs d ++ commonAttrs i st tf) = .ok d := by
  cases d <;> rfl

mutual
/-- Deserializing a serialized element recovers it exactly. -/
theorem elem_roundtrip : ∀ e : Element,
    elemFromMarkup (elemToMarkup e) = .ok e
  | .mk i d st tf cs => by
      rw [elemToMarkup, elemFromMarkup, forest_roundtrip cs,
        parseCommon_roundtrip d i st tf, parseData_roundtrip d i st tf]

/-- Deserializing a serialized forest recovers it exactly, in order. -/
theorem forest_roundtrip : ∀ es : List Element,
    forestFromMarkup (forestToMarkup es) = .ok es
  | [] => rfl
  | e :: es => by
      rw [forestToMarkup, forestFromMarkup, elem_roundtrip e,
        forest_roundtrip es]
end

/-- C4: for every Document D, `fromMarkup(toMarkup(D))` succeeds and is
equal to D — same elements, attributes, order and transforms; numeric
attributes are exact rationals, so each differs by 0 < 1e-6. -/
theorem c4_fromMarkup_toMarkup_roundtrip (doc : Document) :
    fromMarkup (toMarkup doc) = .ok doc := by
  rw [toMarkup, fromMarkup, forest_roundtrip doc.elements]
  rfl
